import Mathlib

/-!
# Retention Dashboard — verification of the specification against the code

Shallow embedding of the Support-Center retention dashboard
(`support_center/public/js/retention-dashboard.js` and the documented
server API).  Pure functions of the source are translated directly;
the stateful client controller (search, pagination, calendar
navigation, response cache) is embedded as explicit state-passing
step functions.  Dates are modelled as integer day numbers, times as
integer minutes, monetary values as natural numbers.
-/

namespace RetentionDashboard

/-! ## Renewal status classification

Modelled from the spec: the classification engine lives in
`support_center/api/retention_dashboard.py`, which is not part of the
source tree here (only its JS callers and the markdown documentation
are).  The definition below follows the spec's precedence rules §4.1:
1. known `next_renewal_date < today` → overdue;
2. unknown renewal date, known `last_order_date`, gap > 365 days → overdue;
3. known renewal date at most 30 days ahead → due_soon;
4. unknown renewal date, known last order, gap in (270, 365] days → due_soon;
5. otherwise active. -/

inductive RenewalStatus where
  | overdue
  | due_soon
  | active
deriving DecidableEq, Repr

/-- Modelled from the spec: renewal-status classification, a pure function of
`(next_renewal_date, last_order_date, today)` (dates as integer day numbers,
`none` = unknown), evaluated in the spec's precedence order. -/
def classify (next_renewal_date : Option Int) (last_order_date : Option Int)
    (today : Int) : RenewalStatus :=
  match next_renewal_date with
  | some nr =>
      if nr < today then RenewalStatus.overdue
      else if nr - today ≤ 30 then RenewalStatus.due_soon
      else RenewalStatus.active
  | none =>
      match last_order_date with
      | some lo =>
          if today - lo > 365 then RenewalStatus.overdue
          else if 270 < today - lo then RenewalStatus.due_soon
          else RenewalStatus.active
      | none => RenewalStatus.active

/-! ## Priority scorer

Modelled from the spec: the priority scorer also lives in the absent
`support_center/api/retention_dashboard.py`; the spec (§4.2) fixes the
four caps (revenue 40, urgency 35, tier 15, engagement 10), the shape
of each component (monotone saturating revenue, urgency peaking for
overdue and decaying past a 90-day horizon, fixed tier mapping,
monotone engagement) and the defaults for missing inputs. -/

inductive Tier where
  | top
  | mid
  | base
deriving DecidableEq, Repr

/-- Modelled from the spec: revenue-at-risk sub-score, a monotone
non-decreasing function of lifetime value saturating at the 40-point cap;
a customer with no orders (unknown lifetime value) defaults to 0. -/
def revenueScore (lifetime_value : Option Nat) : Nat :=
  min ((lifetime_value.getD 0) / 375) 40

/-- Modelled from the spec: urgency sub-score, at the 35-point cap for
overdue customers regardless of magnitude, otherwise decaying toward 0 as
`days_until_renewal` approaches the 90-day horizon; unknown renewal
distance defaults to 0. -/
def urgencyScore (status : RenewalStatus) (days_until_renewal : Option Nat) : Nat :=
  if status = RenewalStatus.overdue then 35
  else
    match days_until_renewal with
    | none => 0
    | some d => if 90 ≤ d then 0 else 35 * (90 - d) / 90

/-- Modelled from the spec: fixed tier mapping (top → 15, mid → 8,
base → 3); a customer with no tier defaults to 0. -/
def tierScore (tier : Option Tier) : Nat :=
  match tier with
  | some Tier.top => 15
  | some Tier.mid => 8
  | some Tier.base => 3
  | none => 0

/-- Modelled from the spec: engagement sub-score, monotone in the number of
orders, capped at 10; zero orders score 0. -/
def engagementScore (total_orders : Nat) : Nat :=
  min total_orders 10

/-- Modelled from the spec: total priority score, the sum of the four
independently capped sub-scores, clamped to [0,100]. -/
def priorityScore (lifetime_value : Option Nat) (status : RenewalStatus)
    (days_until_renewal : Option Nat) (tier : Option Tier)
    (total_orders : Nat) : Nat :=
  min 100 (revenueScore lifetime_value + urgencyScore status days_until_renewal
    + tierScore tier + engagementScore total_orders)

/-! ## Priority level from score

From `retention-dashboard.js` lines 1224–1229 (`getPriorityLabel`, the
later of the two definitions of that name in the class, which is the one
JavaScript keeps): `critical` for score ≥ 75, `high` for ≥ 50, `medium`
for ≥ 25, `low` otherwise. -/

inductive PriorityLevel where
  | critical
  | high
  | medium
  | low
deriving DecidableEq, Repr

/-- The function `getPriorityLabel(score)` from `retention-dashboard.js:1224`. -/
def getPriorityLabel (score : Int) : PriorityLevel :=
  if 75 ≤ score then PriorityLevel.critical
  else if 50 ≤ score then PriorityLevel.high
  else if 25 ≤ score then PriorityLevel.medium
  else PriorityLevel.low

/-! ## Backend search entry (`performBackendSearch`)

From `retention-dashboard.js` lines 1859–1873: a query shorter than 2
characters is rejected with an informational toast and no request;
otherwise a `search_customers` request with `limit = 100` is issued. -/

structure SearchRequest where
  query : String
  limit : Nat
deriving DecidableEq, Repr

/-- The backend request issued by `performBackendSearch(query)`
(`retention-dashboard.js:1859`): `none` when the query is rejected for
being shorter than 2 characters, otherwise the `search_customers` call
with `limit = 100`. -/
def performBackendSearch (query : String) : Option SearchRequest :=
  if query.length < 2 then none
  else some { query := query, limit := 100 }

/-! ## Search request/response interleaving

Event-level embedding of the search view's network behaviour
(`retention-dashboard.js:1859–1901`).  `issueSearch` is the act of
calling `performBackendSearch`: an accepted query puts a request in
flight.  `arriveSearch` is the code that runs when the `await`ed
response returns: it renders the response's customer list
unconditionally — the source keeps no request identity and performs no
staleness check on this path, so the handler runs for whichever
response arrives, in arrival order. -/

structure SearchSys where
  nextId : Nat
  inflight : List (Nat × String)
  rendered : List String
deriving DecidableEq, Repr

/-- Issue a search request for `query`: rejected queries leave the system
unchanged; accepted queries add an in-flight request with a fresh id. -/
def issueSearch (sys : SearchSys) (query : String) : SearchSys :=
  match performBackendSearch query with
  | none => sys
  | some req =>
      { sys with
          nextId := sys.nextId + 1,
          inflight := sys.inflight ++ [(sys.nextId, req.query)] }

/-- Arrival of the response to in-flight request `id`; `server q` is the
customer list the backend returns for query `q`.  Mirrors the `try` body
after the `await` in `performBackendSearch`: the result is rendered with
no check that the request is still the latest. -/
def arriveSearch (server : String → List String) (sys : SearchSys)
    (id : Nat) : SearchSys :=
  match sys.inflight.find? (fun p => p.1 = id) with
  | none => sys
  | some p =>
      { sys with
          inflight := sys.inflight.filter (fun r => r.1 ≠ id),
          rendered := server p.2 }

/-- A concrete backend used for counterexample runs. -/
def demoServer (q : String) : List String :=
  if q = "foo" then ["Foo Corp"]
  else if q = "bar" then ["Bar Inc"]
  else []

/-! ## Calendar load, stale-request tracking and response cache

Embedding of `loadCalendarData` (`retention-dashboard.js:2378–2449`)
and its response handling.  Calendar payloads are opaque (`Nat`).
The cache is the insertion-ordered `this.calendarCache` object: string
keys `year-month`, capped at 6 entries by deleting `Object.keys(...)[0]`
(the oldest-inserted key) after an insert.  Each issued request gets a
tracker with a `cancelled` flag; issuing a new load sets the flag of the
previous pending tracker, and an arriving response whose tracker is
cancelled returns without rendering or caching. -/

/-- The template-string cache key `` `${this.calendarYear}-${this.calendarMonth}` ``. -/
def cacheKey (year month : Nat) : String :=
  toString year ++ "-" ++ toString month

def lookupCache (cache : List (String × Nat)) (key : String) : Option Nat :=
  (cache.find? (fun p => p.1 = key)).map (fun p => p.2)

/-- The assignment `this.calendarCache[cacheKey] = calendarData`:
overwrite in place when the key exists, else append in insertion order. -/
def assignCache (cache : List (String × Nat)) (key : String)
    (data : Nat) : List (String × Nat) :=
  if (cache.find? (fun p => p.1 = key)).isSome then
    cache.map (fun p => if p.1 = key then (key, data) else p)
  else cache ++ [(key, data)]

/-- The assignment followed by the size check: if more than 6 keys remain
afterwards, delete the oldest-inserted one (`Object.keys(...)[0]`). -/
def insertCache (cache : List (String × Nat)) (key : String)
    (data : Nat) : List (String × Nat) :=
  if 6 < (assignCache cache key data).length then
    (assignCache cache key data).tail
  else assignCache cache key data

structure CalSys where
  nextId : Nat
  pending : Option Nat
  inflight : List (Nat × String × Bool)
  cache : List (String × Nat)
  displayed : Option Nat
  calendarError : Option String
deriving DecidableEq, Repr

/-- Set the `cancelled` flag of the currently pending request tracker. -/
def cancelPending (pending : Option Nat)
    (l : List (Nat × String × Bool)) : List (Nat × String × Bool) :=
  match pending with
  | none => l
  | some pid => l.map (fun r => if r.1 = pid then (r.1, r.2.1, true) else r)

/-- Synchronous part of `loadCalendarData(year, month)` called at wall-clock
time `now` (in minutes): on a cache hit render the cached payload and
return without a request; on a miss cancel the pending request and put a
fresh one in flight.  The source consults no clock anywhere on this path,
so `now` is unused. -/
def loadCalendarData (sys : CalSys) (year month : Nat) (_now : Nat) : CalSys :=
  match lookupCache sys.cache (cacheKey year month) with
  | some data => { sys with displayed := some data }
  | none =>
      { sys with
          inflight := cancelPending sys.pending sys.inflight
            ++ [(sys.nextId, cacheKey year month, false)],
          pending := some sys.nextId,
          nextId := sys.nextId + 1 }

def calFind (l : List (Nat × String × Bool)) (id : Nat) : Option (String × Bool) :=
  (l.find? (fun r => r.1 = id)).map (fun r => r.2)

def calRemove (l : List (Nat × String × Bool)) (id : Nat) :
    List (Nat × String × Bool) :=
  l.filter (fun r => r.1 ≠ id)

def calendarErrorText : String := "Failed to load calendar. Please try again."

/-- Successful arrival of calendar request `id` (the code after the
`await`, plus the `finally` block): a cancelled tracker returns at once —
nothing rendered, nothing cached; otherwise the payload is cached with
eviction and rendered. -/
def arriveCalendarSuccess (server : String → Nat) (sys : CalSys)
    (id : Nat) : CalSys :=
  match calFind sys.inflight id with
  | none => sys
  | some kc =>
      if kc.2 then
        { sys with
            inflight := calRemove sys.inflight id,
            pending := if sys.pending = some id then none else sys.pending }
      else
        { sys with
            inflight := calRemove sys.inflight id,
            cache := insertCache sys.cache kc.1 (server kc.1),
            displayed := some (server kc.1),
            pending := if sys.pending = some id then none else sys.pending }

/-- Failed arrival of calendar request `id` (the `catch` block, plus
`finally`): a cancelled tracker returns at once; otherwise the grid shows
the error message — the cache and the last rendered payload are untouched. -/
def arriveCalendarFailure (sys : CalSys) (id : Nat) : CalSys :=
  match calFind sys.inflight id with
  | none => sys
  | some kc =>
      if kc.2 then
        { sys with
            inflight := calRemove sys.inflight id,
            pending := if sys.pending = some id then none else sys.pending }
      else
        { sys with
            inflight := calRemove sys.inflight id,
            calendarError := some calendarErrorText,
            pending := if sys.pending = some id then none else sys.pending }

/-! ## Search-input debouncing

From `initializeEventListeners` (`retention-dashboard.js:92–124`): every
`input` event first clears the previously scheduled timeout, trims the
value, clears the search when the value is empty, and otherwise schedules
`performBackendSearch(value)` after 400 ms of inactivity. -/

def debounceMs : Nat := 400

/-- One `input` event on the search box: drop any scheduled search, and
schedule the trimmed value unless it is empty. -/
def inputStep (_st : Option String) (raw : String) : Option String :=
  if raw.trim.isEmpty then none else some raw.trim

/-- The debounce timeout firing after `debounceMs` of inactivity: the
scheduled value (if any) is handed to `performBackendSearch`, which still
rejects values shorter than 2 characters. -/
def fireDebounce (st : Option String) : Option SearchRequest :=
  match st with
  | none => none
  | some v => performBackendSearch v

/-! ## Failure handlers of the clients list and search views

`showClientsError` (`retention-dashboard.js:2048–2058`), and the `catch`
of `performBackendSearch` (`retention-dashboard.js:1896–1900`), which
shows an error toast and calls `clearSearch()` (reset to page 1 and
reload the unfiltered list). -/

inductive TableView where
  | rows (data : List String)
  | loading
  | failed (msg : String)
deriving DecidableEq, Repr

structure DashView where
  clients : List String
  table : TableView
  toast : Option String
  currentPage : Int
deriving DecidableEq, Repr

def clientsErrorText : String := "Failed to load clients. Please try again."

def searchErrorToastText : String := "Search failed. Please try again."

/-- The handler `showClientsError()`: replace the table body with the
error row; `this.clients` is not touched. -/
def showClientsError (v : DashView) : DashView :=
  { v with table := TableView.failed clientsErrorText }

/-- The `catch` of `performBackendSearch`: show the error toast, then
`clearSearch()` resets to page 1 and starts reloading the unfiltered
list (`loadClients(true)` shows the loading row); `this.clients` is not
touched by the failure path itself. -/
def searchFailureHandler (v : DashView) : DashView :=
  { v with
      toast := some searchErrorToastText,
      currentPage := 1,
      table := TableView.loading }

/-- A message surfaces a retry affordance when it literally tells the user
to try again. -/
def surfacesRetry (msg : String) : Prop :=
  ∃ pre post, msg = pre ++ ("try again" ++ post)

/-! ## Calendar month navigation

From `initializeEventListeners` (`retention-dashboard.js:236–259`): the
prev-month button decrements the month and wraps 0 → December of the
previous year; the next-month button increments and wraps 13 → January of
the next year; the today button jumps to the current date's year/month. -/

structure CalNav where
  calendarYear : Int
  calendarMonth : Int
deriving DecidableEq, Repr

/-- The `prev-month` click handler: decrement, wrap below January. -/
def prevMonthClick (s : CalNav) : CalNav :=
  if s.calendarMonth - 1 < 1 then
    { calendarYear := s.calendarYear - 1, calendarMonth := 12 }
  else { s with calendarMonth := s.calendarMonth - 1 }

/-- The `next-month` click handler: increment, wrap past December. -/
def nextMonthClick (s : CalNav) : CalNav :=
  if 12 < s.calendarMonth + 1 then
    { calendarYear := s.calendarYear + 1, calendarMonth := 1 }
  else { s with calendarMonth := s.calendarMonth + 1 }

inductive NavAction where
  | prev
  | next
  | today (t : CalNav)
deriving DecidableEq, Repr

/-- One navigation action; `today t` carries the `(year, month)` the
`today-btn` handler reads off `new Date()`. -/
def navStep (s : CalNav) (a : NavAction) : CalNav :=
  match a with
  | NavAction.prev => prevMonthClick s
  | NavAction.next => nextMonthClick s
  | NavAction.today t => t

def navRun (s : CalNav) (acts : List NavAction) : CalNav :=
  acts.foldl navStep s

def validMonth (s : CalNav) : Prop :=
  1 ≤ s.calendarMonth ∧ s.calendarMonth ≤ 12

instance (s : CalNav) : Decidable (validMonth s) := by
  unfold validMonth; infer_instance

/-- Months linearized: consecutive calendar months have consecutive
indices. -/
def monthIndex (s : CalNav) : Int :=
  12 * s.calendarYear + (s.calendarMonth - 1)

/-- In the source, `new Date().getMonth() + 1` always lies in 1..12, so a
`today` action carries a valid month. -/
def navActionValid : NavAction → Prop
  | NavAction.today t => validMonth t
  | _ => True

instance (a : NavAction) : Decidable (navActionValid a) := by
  unfold navActionValid; cases a <;> infer_instance

/-! ## Pagination

From `loadClients` / `loadNextPage` / `loadPreviousPage` /
`renderPagination` (`retention-dashboard.js:817–894`). -/

def pageSize : Nat := 50

inductive PageAction where
  | nextPage
  | prevPage
  | resetLoad
deriving DecidableEq, Repr

/-- Effect of the pagination controls on `this.currentPage`:
`loadNextPage` increments, `loadPreviousPage` decrements only above
page 1, `loadClients(true)` resets to 1. -/
def pageStep (p : Int) : PageAction → Int
  | PageAction.nextPage => p + 1
  | PageAction.prevPage => if 1 < p then p - 1 else p
  | PageAction.resetLoad => 1

def pageRun (p : Int) (acts : List PageAction) : Int :=
  acts.foldl pageStep p

/-- The offset sent to the backend: `(this.currentPage - 1) * this.pageSize`. -/
def loadOffset (p : Int) : Int :=
  (p - 1) * (pageSize : Int)

/-- Rows a backend holding `total` matching customers returns for a page
at `offset`: up to `pageSize` of the remaining ones. -/
def serverRows (total offset : Nat) : Nat :=
  min pageSize (total - offset)

/-- The Next control of `renderPagination`: offered exactly when
`this.clients.length >= this.pageSize`. -/
def hasNextPage (rowsReturned : Nat) : Bool :=
  pageSize ≤ rowsReturned

/-! ## Helper lemmas -/

lemma classify_some (n : Int) (lo : Option Int) (t : Int) :
    classify (some n) lo t =
      if n < t then RenewalStatus.overdue
      else if n - t ≤ 30 then RenewalStatus.due_soon
      else RenewalStatus.active := rfl

lemma classify_none_some (l t : Int) :
    classify none (some l) t =
      if t - l > 365 then RenewalStatus.overdue
      else if 270 < t - l then RenewalStatus.due_soon
      else RenewalStatus.active := rfl

lemma urgencyScore_le (status : RenewalStatus) (d : Option Nat) :
    urgencyScore status d ≤ 35 := by
  unfold urgencyScore
  split
  · exact Nat.le_refl 35
  · cases d with
    | none => exact Nat.zero_le 35
    | some dd =>
      show (if 90 ≤ dd then 0 else 35 * (90 - dd) / 90) ≤ 35
      split
      · exact Nat.zero_le 35
      · calc 35 * (90 - dd) / 90 ≤ 35 * 90 / 90 :=
              Nat.div_le_div_right (Nat.mul_le_mul_left 35 (by omega))
          _ = 35 := by norm_num

lemma tierScore_le (tier : Option Tier) : tierScore tier ≤ 15 := by
  cases tier with
  | none => decide
  | some tt => cases tt <;> decide

/-! ## Claim theorems -/

/-- C2: the renewal-status classification is a pure function of
`(next_renewal_date, last_order_date, today)` evaluated in the spec's
precedence order: known renewal date in the past gives `overdue`; unknown
renewal date with a last order more than 365 days old gives `overdue`;
known renewal date at most 30 days ahead gives `due_soon`; unknown
renewal date with a last order between 270 (exclusive) and 365
(inclusive) days old gives `due_soon`; everything else — in particular a
customer with neither a subscription nor an order — is `active`.
Consequently yesterday's renewal date is `overdue` for any today,
`today + 10` is `due_soon` and `today + 45` is `active`. -/
theorem classify_precedence (nr lo : Option Int) (t n l : Int) :
    (nr = some n → n < t → classify nr lo t = RenewalStatus.overdue)
    ∧ (nr = none → lo = some l → t - l > 365 →
        classify nr lo t = RenewalStatus.overdue)
    ∧ (nr = some n → ¬ n < t → n - t ≤ 30 →
        classify nr lo t = RenewalStatus.due_soon)
    ∧ (nr = none → lo = some l → 270 < t - l → t - l ≤ 365 →
        classify nr lo t = RenewalStatus.due_soon)
    ∧ (nr = some n → ¬ n < t → ¬ n - t ≤ 30 →
        classify nr lo t = RenewalStatus.active)
    ∧ (nr = none → lo = some l → t - l ≤ 270 →
        classify nr lo t = RenewalStatus.active)
    ∧ classify none none t = RenewalStatus.active
    ∧ classify (some (t - 1)) lo t = RenewalStatus.overdue
    ∧ classify (some (t + 10)) lo t = RenewalStatus.due_soon
    ∧ classify (some (t + 45)) lo t = RenewalStatus.active := by
  refine ⟨?_, ?_, ?_, ?_, ?_, ?_, rfl, ?_, ?_, ?_⟩
  · rintro rfl h
    rw [classify_some, if_pos h]
  · rintro rfl rfl h
    rw [classify_none_some, if_pos h]
  · rintro rfl h1 h2
    rw [classify_some, if_neg h1, if_pos h2]
  · rintro rfl rfl h1 h2
    rw [classify_none_some, if_neg (by omega), if_pos h1]
  · rintro rfl h1 h2
    rw [classify_some, if_neg h1, if_neg h2]
  · rintro rfl rfl h
    rw [classify_none_some, if_neg (by omega), if_neg (by omega)]
  · rw [classify_some, if_pos (by omega)]
  · rw [classify_some, if_neg (by omega), if_pos (by omega)]
  · rw [classify_some, if_neg (by omega), if_neg (by omega)]

/-- Witness for `classify_precedence` at concrete dates (day numbers):
a renewal date of day 9 with today = day 10 is overdue. -/
theorem classify_precedence_witness :
    classify (some 9) (some 0) 10 = RenewalStatus.overdue :=
  (classify_precedence (some 9) (some 0) 10 9 0).1 rfl (by decide)

/-- C3: for all inputs the priority score is an integer in [0,100] equal
to the un-clamped sum of the four independently capped sub-scores —
revenue at most 40, urgency at most 35, tier at most 15, engagement at
most 10 — and missing inputs (no orders, no tier) give each affected
sub-score its minimum 0; the scorer is a total function, so no input
yields null or an exception. -/
theorem priorityScore_caps (ltv : Option Nat) (status : RenewalStatus)
    (d : Option Nat) (tier : Option Tier) (orders : Nat) :
    revenueScore ltv ≤ 40
    ∧ urgencyScore status d ≤ 35
    ∧ tierScore tier ≤ 15
    ∧ engagementScore orders ≤ 10
    ∧ priorityScore ltv status d tier orders
        = revenueScore ltv + urgencyScore status d + tierScore tier
          + engagementScore orders
    ∧ priorityScore ltv status d tier orders ≤ 100
    ∧ revenueScore none = 0
    ∧ engagementScore 0 = 0
    ∧ tierScore none = 0 := by
  have hr : revenueScore ltv ≤ 40 := min_le_right _ _
  have hu : urgencyScore status d ≤ 35 := urgencyScore_le status d
  have ht : tierScore tier ≤ 15 := tierScore_le tier
  have he : engagementScore orders ≤ 10 := min_le_right _ _
  have hsum : revenueScore ltv + urgencyScore status d + tierScore tier
      + engagementScore orders ≤ 100 := by omega
  have heq : priorityScore ltv status d tier orders
      = revenueScore ltv + urgencyScore status d + tierScore tier
        + engagementScore orders := by
    unfold priorityScore
    exact Nat.min_eq_right hsum
  exact ⟨hr, hu, ht, he, heq, by omega, rfl, rfl, rfl⟩

/-- C4: `performBackendSearch` rejects every query shorter than 2
characters without issuing a backend request, and accepts every query of
length at least 2, issuing the `search_customers` request with
`limit = 100`; in particular `"a"` is rejected and `"ab"` accepted. -/
theorem performBackendSearch_minLength (q : String) :
    (q.length < 2 → performBackendSearch q = none)
    ∧ (2 ≤ q.length →
        performBackendSearch q = some { query := q, limit := 100 })
    ∧ performBackendSearch "a" = none
    ∧ performBackendSearch "ab" = some { query := "ab", limit := 100 } := by
  refine ⟨?_, ?_, by decide, by decide⟩
  · intro h
    unfold performBackendSearch
    rw [if_pos h]
  · intro h
    unfold performBackendSearch
    rw [if_neg (by omega)]

/-- Witness for `performBackendSearch_minLength`: the one-character query
is rejected, the two-character query is accepted. -/
theorem performBackendSearch_minLength_witness :
    performBackendSearch "a" = none
    ∧ performBackendSearch "ab" = some { query := "ab", limit := 100 } :=
  ⟨(performBackendSearch_minLength "a").1 (by decide),
   (performBackendSearch_minLength "ab").2.1 (by decide)⟩

/-- C8: the priority level derived from a score follows exactly the
thresholds of `getPriorityLabel`: `critical` iff score ≥ 75, `high` iff
75 > score ≥ 50, `medium` iff 50 > score ≥ 25, `low` iff score < 25, for
every integer score in [0,100]. -/
theorem getPriorityLabel_thresholds (s : Int) (h0 : 0 ≤ s) (h100 : s ≤ 100) :
    (getPriorityLabel s = PriorityLevel.critical ↔ 75 ≤ s)
    ∧ (getPriorityLabel s = PriorityLevel.high ↔ 50 ≤ s ∧ s < 75)
    ∧ (getPriorityLabel s = PriorityLevel.medium ↔ 25 ≤ s ∧ s < 50)
    ∧ (getPriorityLabel s = PriorityLevel.low ↔ s < 25) := by
  unfold getPriorityLabel
  split_ifs with h1 h2 h3 <;>
    refine ⟨?_, ?_, ?_, ?_⟩ <;> simp <;> omega

/-- Witness for `getPriorityLabel_thresholds`: score 80 is `critical`. -/
theorem getPriorityLabel_thresholds_witness :
    getPriorityLabel 80 = PriorityLevel.critical :=
  ((getPriorityLabel_thresholds 80 (by decide) (by decide)).1).2 (by decide)

/-- C1 counterexample: in the search view a stale response is rendered,
not discarded.  Issue a search for "foo" (request 0), then for "bar"
(request 1); the "bar" response arrives first and is rendered; then the
stale "foo" response arrives and overwrites the "bar" results on screen —
the most recently issued request's response is not the one left rendered. -/
theorem staleSearchOverwrites :
    let s0 : SearchSys := { nextId := 0, inflight := [], rendered := [] }
    let s2 := issueSearch (issueSearch s0 "foo") "bar"
    let s3 := arriveSearch demoServer s2 1
    let s4 := arriveSearch demoServer s3 0
    s3.rendered = ["Bar Inc"] ∧ s4.rendered = ["Foo Corp"]
      ∧ ["Foo Corp"] ≠ ["Bar Inc"] := by decide

/-- C1 (amended): stale-response suppression exists only in the calendar
view — a calendar response whose request tracker was cancelled by a newer
calendar load is discarded, leaving the rendered payload and the cache
unchanged, and a cache-missing calendar load cancels the pending request
while putting a fresh one in flight; the search view has no guard — an
arriving in-flight search response is always rendered, so the rendered
results are those of whichever response arrived last. -/
theorem staleResponseHandling (calServer : String → Nat)
    (searchServer : String → List String) (cal : CalSys) (sys : SearchSys)
    (id : Nat) (key : String) (q : String) (y m t : Nat) :
    (calFind cal.inflight id = some (key, true) →
      (arriveCalendarSuccess calServer cal id).displayed = cal.displayed
        ∧ (arriveCalendarSuccess calServer cal id).cache = cal.cache)
    ∧ (lookupCache cal.cache (cacheKey y m) = none →
        (loadCalendarData cal y m t).inflight
          = cancelPending cal.pending cal.inflight
            ++ [(cal.nextId, cacheKey y m, false)]
        ∧ (loadCalendarData cal y m t).pending = some cal.nextId)
    ∧ (sys.inflight.find? (fun p => p.1 = id) = some (id, q) →
        (arriveSearch searchServer sys id).rendered = searchServer q) := by
  refine ⟨?_, ?_, ?_⟩
  · intro h
    unfold arriveCalendarSuccess
    rw [h]
    exact ⟨rfl, rfl⟩
  · intro h
    unfold loadCalendarData
    rw [h]
    exact ⟨rfl, rfl⟩
  · intro h
    unfold arriveSearch
    rw [h]

/-- Witness for `staleResponseHandling`: a cancelled calendar request
(id 0) arrives into a state where request 1 is now pending; nothing is
rendered or cached, and an in-flight search response for "foo" is
rendered unconditionally. -/
theorem staleResponseHandling_witness :
    ((arriveCalendarSuccess (fun k => k.length)
        { nextId := 2, pending := some 1,
          inflight := [(0, "2025-1", true), (1, "2025-2", false)],
          cache := [], displayed := none, calendarError := none }
        0).displayed = none
      ∧ (arriveCalendarSuccess (fun k => k.length)
        { nextId := 2, pending := some 1,
          inflight := [(0, "2025-1", true), (1, "2025-2", false)],
          cache := [], displayed := none, calendarError := none }
        0).cache = [])
    ∧ (arriveSearch demoServer
        { nextId := 1, inflight := [(0, "foo")], rendered := [] }
        0).rendered = demoServer "foo" :=
  ⟨(staleResponseHandling (fun k => k.length) demoServer
      { nextId := 2, pending := some 1,
        inflight := [(0, "2025-1", true), (1, "2025-2", false)],
        cache := [], displayed := none, calendarError := none }
      { nextId := 1, inflight := [(0, "foo")], rendered := [] }
      0 "2025-1" "foo" 2025 1 0).1 (by decide),
   (staleResponseHandling (fun k => k.length) demoServer
      { nextId := 2, pending := some 1,
        inflight := [(0, "2025-1", true), (1, "2025-2", false)],
        cache := [], displayed := none, calendarError := none }
      { nextId := 1, inflight := [(0, "foo")], rendered := [] }
      0 "2025-1" "foo" 2025 1 0).2.2 (by decide)⟩

/-- C5 counterexample: the calendar response cache has no TTL.  An entry
cached for March 2025 is still served 525600 minutes (one year) later —
far beyond any minutes-scale TTL — and no fresh request is issued: the
whole system state changes only by rendering the cached payload. -/
theorem calendarCacheNoTTL :
    let sys : CalSys :=
      { nextId := 1
        pending := none
        inflight := []
        cache := [(cacheKey 2025 3, 42)]
        displayed := none
        calendarError := none }
    loadCalendarData sys 2025 3 525600 = { sys with displayed := some 42 } := by
  decide

/-- C5 (amended): the calendar response cache is keyed by the
`year-month` string of the requested month, entries never expire (cache
behaviour is independent of the time of the call), a hit is served from
the cache without a request, the cache is bounded to 6 keys, and
inserting a 7th key evicts the oldest-inserted entry. -/
theorem calendarCacheBound (cache : List (String × Nat)) (key : String)
    (d v : Nat) (sys : CalSys) (y m t t' : Nat) :
    (cache.length ≤ 6 → (insertCache cache key d).length ≤ 6)
    ∧ (cache.length = 6 → (cache.find? (fun p => p.1 = key)).isSome = false →
        insertCache cache key d = cache.tail ++ [(key, d)])
    ∧ loadCalendarData sys y m t = loadCalendarData sys y m t'
    ∧ (lookupCache sys.cache (cacheKey y m) = some v →
        loadCalendarData sys y m t = { sys with displayed := some v }) := by
  refine ⟨?_, ?_, rfl, ?_⟩
  · intro h
    have hlen : (assignCache cache key d).length ≤ cache.length + 1 := by
      unfold assignCache
      split_ifs
      · simp only [List.length_map]
        omega
      · simp only [List.length_append, List.length_cons, List.length_nil]
        omega
    unfold insertCache
    split_ifs with h6
    · rw [List.length_tail]
      omega
    · omega
  · intro hlen hfresh
    have hassign : assignCache cache key d = cache ++ [(key, d)] := by
      unfold assignCache
      rw [hfresh]
      simp
    have hlen7 : (assignCache cache key d).length = 7 := by
      rw [hassign]
      simp [hlen]
    unfold insertCache
    rw [if_pos (by omega), hassign]
    cases cache with
    | nil => simp at hlen
    | cons a as => rfl
  · intro h
    unfold loadCalendarData
    rw [h]

/-- Witness for `calendarCacheBound`: inserting a 7th key into a 6-entry
cache evicts the oldest entry, and a cache hit renders without a request. -/
theorem calendarCacheBound_witness :
    insertCache [("a1", 1), ("a2", 2), ("a3", 3), ("a4", 4), ("a5", 5),
        ("a6", 6)] "a7" 7
      = [("a2", 2), ("a3", 3), ("a4", 4), ("a5", 5), ("a6", 6), ("a7", 7)]
    ∧ loadCalendarData
        { nextId := 1, pending := none, inflight := [],
          cache := [(cacheKey 2025 3, 42)], displayed := none,
          calendarError := none } 2025 3 0
      = { nextId := 1, pending := none, inflight := [],
          cache := [(cacheKey 2025 3, 42)], displayed := some 42,
          calendarError := none } := by
  constructor
  · have h := (calendarCacheBound
      [("a1", 1), ("a2", 2), ("a3", 3), ("a4", 4), ("a5", 5), ("a6", 6)]
      "a7" 7 0
      { nextId := 1, pending := none, inflight := [], cache := [],
        displayed := none, calendarError := none } 0 0 0 0).2.1
      (by decide) (by decide)
    rw [h]
    decide
  · exact (calendarCacheBound [] "" 0 42
      { nextId := 1, pending := none, inflight := [],
        cache := [(cacheKey 2025 3, 42)], displayed := none,
        calendarError := none } 2025 3 0 0).2.2.2 (by decide)

/-- C6: the debounce delay is 400 ms, inside the 300–400 ms window, and
for any burst of input events arriving within the debounce window (so no
timeout fires in between), the single search that can fire afterwards is
for the last value — issued exactly when its trimmed form is non-empty
and at least 2 characters long. -/
theorem debounceLastValueWins (s0 : Option String) (l : List String)
    (x : String) :
    debounceMs = 400 ∧ 300 ≤ debounceMs ∧ debounceMs ≤ 400
    ∧ fireDebounce (List.foldl inputStep s0 (l ++ [x]))
        = if 2 ≤ x.trim.length
          then some { query := x.trim, limit := 100 }
          else none := by
  refine ⟨rfl, by decide, by decide, ?_⟩
  rw [List.foldl_append]
  simp only [List.foldl_cons, List.foldl_nil]
  unfold inputStep
  by_cases hempty : x.trim.isEmpty
  · rw [if_pos hempty]
    have h0 : x.trim = "" := (String.isEmpty_iff x.trim).mp hempty
    have hlen : x.trim.length = 0 := by
      rw [h0]
      decide
    show (none : Option SearchRequest) = _
    rw [if_neg (by omega)]
  · rw [if_neg hempty]
    show performBackendSearch x.trim = _
    unfold performBackendSearch
    split_ifs <;> first | rfl | omega

lemma navStep_valid (s : CalNav) (a : NavAction) (hs : validMonth s)
    (ha : navActionValid a) : validMonth (navStep s a) := by
  obtain ⟨h1, h2⟩ := hs
  cases a with
  | prev =>
      show validMonth (prevMonthClick s)
      unfold prevMonthClick validMonth
      split_ifs <;> constructor <;> simp <;> omega
  | next =>
      show validMonth (nextMonthClick s)
      unfold nextMonthClick validMonth
      split_ifs <;> constructor <;> simp <;> omega
  | today t => exact ha

lemma navRun_valid (acts : List NavAction) : ∀ s : CalNav, validMonth s →
    (∀ a ∈ acts, navActionValid a) → validMonth (navRun s acts) := by
  induction acts with
  | nil => exact fun s hs _ => hs
  | cons a rest ih =>
      intro s hs hacts
      exact ih (navStep s a) (navStep_valid s a hs (hacts a (by simp)))
        (fun b hb => hacts b (by simp [hb]))

/-- C9: calendar month navigation keeps `1 ≤ calendarMonth ≤ 12`:
the prev/next handlers wrap January to December of the previous year and
December to January of the next year, each moves to the adjacent calendar
month (the linear month index changes by exactly one), and any sequence
of prev/next/today actions preserves the invariant. -/
theorem calendarNavigation (s : CalNav) (acts : List NavAction)
    (hs : validMonth s) (hacts : ∀ a ∈ acts, navActionValid a) :
    validMonth (prevMonthClick s)
    ∧ validMonth (nextMonthClick s)
    ∧ monthIndex (prevMonthClick s) = monthIndex s - 1
    ∧ monthIndex (nextMonthClick s) = monthIndex s + 1
    ∧ (s.calendarMonth = 1 →
        prevMonthClick s
          = { calendarYear := s.calendarYear - 1, calendarMonth := 12 })
    ∧ (s.calendarMonth = 12 →
        nextMonthClick s
          = { calendarYear := s.calendarYear + 1, calendarMonth := 1 })
    ∧ validMonth (navRun s acts) := by
  obtain ⟨hs1, hs2⟩ := hs
  refine ⟨?_, ?_, ?_, ?_, ?_, ?_,
    navRun_valid acts s ⟨hs1, hs2⟩ hacts⟩
  · unfold prevMonthClick validMonth
    split_ifs <;> constructor <;> simp <;> omega
  · unfold nextMonthClick validMonth
    split_ifs <;> constructor <;> simp <;> omega
  · unfold prevMonthClick monthIndex
    split_ifs with h <;> simp <;> omega
  · unfold nextMonthClick monthIndex
    split_ifs with h <;> simp <;> omega
  · intro h1
    unfold prevMonthClick
    rw [if_pos (by omega)]
  · intro h12
    unfold nextMonthClick
    rw [if_pos (by omega)]

/-- Witness for `calendarNavigation`: starting at January 2025, the
sequence prev, next, today(October 2025) keeps the month in 1..12. -/
theorem calendarNavigation_witness :
    validMonth (navRun { calendarYear := 2025, calendarMonth := 1 }
      [NavAction.prev, NavAction.next,
        NavAction.today { calendarYear := 2025, calendarMonth := 10 }]) :=
  (calendarNavigation { calendarYear := 2025, calendarMonth := 1 }
    [NavAction.prev, NavAction.next,
      NavAction.today { calendarYear := 2025, calendarMonth := 10 }]
    (by decide) (by decide)).2.2.2.2.2.2

/-- C7: every request-failure handler — clients list, search, calendar —
moves the affected view into an error presentation whose message tells
the user to try again, and leaves the previously loaded data untouched:
the failed clients load keeps `this.clients`, the failed search keeps
`this.clients` while resetting to page 1 and reloading, and the failed
calendar load keeps the cache and the last rendered payload. -/
theorem failureHandlersSafe (v : DashView) (sys : CalSys) (id : Nat)
    (key : String) :
    ((showClientsError v).clients = v.clients
      ∧ (showClientsError v).table = TableView.failed clientsErrorText
      ∧ surfacesRetry clientsErrorText)
    ∧ ((searchFailureHandler v).clients = v.clients
      ∧ (searchFailureHandler v).toast = some searchErrorToastText
      ∧ (searchFailureHandler v).currentPage = 1
      ∧ surfacesRetry searchErrorToastText)
    ∧ (calFind sys.inflight id = some (key, false) →
        (arriveCalendarFailure sys id).calendarError = some calendarErrorText
          ∧ (arriveCalendarFailure sys id).cache = sys.cache
          ∧ (arriveCalendarFailure sys id).displayed = sys.displayed
          ∧ surfacesRetry calendarErrorText) := by
  refine ⟨⟨rfl, rfl, "Failed to load clients. Please ", ".", by decide⟩,
    ⟨rfl, rfl, rfl, "Search failed. Please ", ".", by decide⟩, ?_⟩
  intro h
  unfold arriveCalendarFailure
  rw [h]
  exact ⟨rfl, rfl, rfl, "Failed to load calendar. Please ", ".", by decide⟩

/-- Witness for `failureHandlersSafe`: a failed calendar request (id 0,
not cancelled) shows the retry message and keeps cache and payload. -/
theorem failureHandlersSafe_witness :
    (arriveCalendarFailure
      { nextId := 1, pending := some 0, inflight := [(0, "2025-1", false)],
        cache := [("2024-12", 5)], displayed := some 5,
        calendarError := none } 0).calendarError = some calendarErrorText
    ∧ (arriveCalendarFailure
      { nextId := 1, pending := some 0, inflight := [(0, "2025-1", false)],
        cache := [("2024-12", 5)], displayed := some 5,
        calendarError := none } 0).cache = [("2024-12", 5)] := by
  have h := (failureHandlersSafe
    { clients := [], table := TableView.loading, toast := none,
      currentPage := 1 }
    { nextId := 1, pending := some 0, inflight := [(0, "2025-1", false)],
      cache := [("2024-12", 5)], displayed := some 5,
      calendarError := none } 0 "2025-1").2.2 (by decide)
  exact ⟨h.1, h.2.1⟩

lemma pageRun_ge_one (acts : List PageAction) : ∀ p : Int, 1 ≤ p →
    1 ≤ pageRun p acts := by
  induction acts with
  | nil => exact fun p hp => hp
  | cons a rest ih =>
      intro p hp
      refine ih (pageStep p a) ?_
      cases a with
      | nextPage =>
          show 1 ≤ p + 1
          omega
      | prevPage =>
          show 1 ≤ if 1 < p then p - 1 else p
          split_ifs <;> omega
      | resetLoad =>
          show (1 : Int) ≤ 1
          omega

/-- C10: pagination keeps `currentPage ≥ 1` under every sequence of
next/previous/reset actions, `loadPreviousPage` is a no-op on page 1, the
backend offset `(currentPage - 1) × pageSize` is therefore never
negative, the Next control is offered exactly when the current page
returned at least `pageSize` rows, and a collection of size an exact
multiple of `pageSize` returns a full last page (so Next is still
offered) followed by an empty one. -/
theorem paginationInvariant (acts : List PageAction) (p : Int)
    (k total r : Nat) (hp : 1 ≤ p) (hk : 1 ≤ k)
    (htotal : total = k * pageSize) :
    1 ≤ pageRun 1 acts
    ∧ pageStep 1 PageAction.prevPage = 1
    ∧ 0 ≤ loadOffset p
    ∧ (hasNextPage r = true ↔ pageSize ≤ r)
    ∧ serverRows total ((k - 1) * pageSize) = pageSize
    ∧ hasNextPage (serverRows total ((k - 1) * pageSize)) = true
    ∧ serverRows total (k * pageSize) = 0 := by
  have hfull : serverRows total ((k - 1) * pageSize) = pageSize := by
    unfold serverRows pageSize
    unfold pageSize at htotal
    omega
  refine ⟨pageRun_ge_one acts 1 (by omega), by decide, ?_, ?_, hfull, ?_, ?_⟩
  · unfold loadOffset pageSize
    omega
  · unfold hasNextPage
    simp
  · rw [hfull]
    decide
  · unfold serverRows
    omega

/-- Witness for `paginationInvariant`: two pages of a 100-row collection
with page size 50 — the second page is full, Next is offered, the third
page is empty. -/
theorem paginationInvariant_witness :
    1 ≤ pageRun 1 [PageAction.nextPage, PageAction.prevPage]
    ∧ serverRows 100 50 = 50
    ∧ serverRows 100 100 = 0 := by
  have h := paginationInvariant [PageAction.nextPage, PageAction.prevPage]
    1 2 100 50 (by decide) (by decide) (by decide)
  exact ⟨h.1, h.2.2.2.2.1, h.2.2.2.2.2.2⟩

end RetentionDashboard
